import Mathlib

/-
  Verification of the note-taking service (Fiber + GORM, Go).

  Shallow embedding of the authenticated CRUD + cache subsystem:
  - internal/models/cache.go   (Cache, SaveNotes, LoadNotes, ClearNotesCache)
  - internal/models/note.go    (Note)
  - internal/handlers/auth.go  (Register, Login, AuthMiddleware, hashPassword,
                                generateToken)
  - internal/handlers/notes.go (getNotes, fetchUserNotes, createNote,
                                updateNote, deleteNote, getUserIDFromToken)

  Modelling conventions:
  - machine integers and unix times are Nat (all values in scope are
    non-negative and no overflow is reachable in any claim);
  - time.Time is a unix-seconds Nat, the zero value is 0, `nil *time.Time`
    is `none`;
  - JSON marshal/unmarshal of a note list (cache.go) is modelled as the
    identity on `List Note` (the round-trip through encoding/json is lossless
    for these fields);
  - bcrypt is modelled as an injective symbolic one-way function (the spec
    treats the hash algorithm as a black box);
  - an HMAC-signed JWT is modelled symbolically: a token carries its claims
    and the key it was signed with; verification succeeds exactly when the
    verifying key equals the signing key and the token is unexpired
    (jwt/v4 MapClaims: valid iff now < exp);
  - the SQLite store is a record of lists; GORM behaviours that the code
    relies on are modelled where they are documented, with a comment at the
    definition that uses them.
-/

namespace NotesApp

/-- models.User (internal/models/user.go).  gorm.Model contributes id,
createdAt, updatedAt and a `gorm.DeletedAt` soft-delete column (User does not
shadow it, so GORM's automatic `deleted_at IS NULL` filtering applies to user
queries).  The optional informational columns (phone_number, city, country,
dateOfBirth) carry `validate:"omitempty"` and are touched by no claim; they
are omitted from the embedding. -/
structure User where
  id : Nat
  username : String
  password : String
  firstName : String
  lastName : String
  email : String
  createdAt : Nat
  updatedAt : Nat
  deletedAt : Option Nat
deriving Repr, DecidableEq

/-- models.Note (internal/models/note.go), as stored in the notes table.
Note declares its own `DeletedAt *time.Time`, which shadows the embedded
gorm.Model field (GORM keeps the field with the shortest path for a column
name); a plain `*time.Time` implements none of GORM's soft-delete clause
interfaces, so notes get NO automatic `deleted_at IS NULL` filtering and no
soft-delete behaviour on Delete — deletion and filtering are done by hand in
the handlers.  The `User` association field is not a column. -/
structure Note where
  id : Nat
  userId : Nat
  title : String
  body : String
  createdAt : Nat
  updatedAt : Nat
  deletedAt : Option Nat
deriving Repr, DecidableEq

/-- A request body parsed by Fiber's BodyParser into models.Note.  The parse
is case-insensitive on field names, so a client can populate the embedded
gorm.Model's ID and CreatedAt as well as the tagged user_id, title, body,
deleted_at fields, and the `User` association struct (zero-valued when the
body does not mention it). -/
structure NoteReq where
  id : Nat
  userId : Nat
  user : User
  title : String
  body : String
  createdAt : Nat
  deletedAt : Option Nat
deriving Repr, DecidableEq

/-- models.Cache (internal/models/cache.go): persisted cache row.  It embeds
gorm.Model without shadowing, so `deletedAt` here is the GORM soft-delete
column and queries on the cache table filter `deleted_at IS NULL`
automatically.  `notes` holds the JSON snapshot, modelled as the note list
itself. -/
structure CacheRow where
  id : Nat
  userId : Nat
  notes : List Note
  expiryDate : Nat
  deletedAt : Option Nat
deriving Repr, DecidableEq

/-- The SQLite database reached through GORM: users, notes and cache tables
plus the auto-increment counters for their integer primary keys. -/
structure Db where
  users : List User
  notes : List Note
  caches : List CacheRow
  nextUserId : Nat
  nextNoteId : Nat
  nextCacheId : Nat
deriving Repr, DecidableEq

/-- Process state: the database plus the package-level in-memory map
`notesCache : map[int][]Note` of cache.go, modelled as an association list
(later bindings shadow earlier ones is avoided by replacing on insert, like
a Go map). -/
structure AppState where
  db : Db
  memCache : List (Nat × List Note)
deriving Repr, DecidableEq

/-- Go map read `notesCache[userID]`. -/
def memLookup (m : List (Nat × List Note)) (k : Nat) : Option (List Note) :=
  (m.find? (fun p => p.1 == k)).map (fun p => p.2)

/-- Go map write `notesCache[userID] = notes` (replaces any previous
binding). -/
def memInsert (m : List (Nat × List Note)) (k : Nat) (v : List Note) :
    List (Nat × List Note) :=
  (k, v) :: m.filter (fun p => p.1 != k)

/-- 24 hours in seconds (time.Hour-based durations in the source). -/
def day : Nat := 24 * 3600

/-- `tx.Where("user_id = ?", userID).First(&cache)` on the cache table.
First returns the row with the smallest primary key; rows are kept in
insertion order with increasing ids, and GORM adds the soft-delete filter
for Cache. -/
def cacheFind (rows : List CacheRow) (uid : Nat) : Option CacheRow :=
  rows.find? (fun r => r.userId == uid && r.deletedAt.isNone)

/-- models.SaveNotes: writes the note list into the in-memory map, then in a
transaction updates the existing cache row for the user (refreshing the
24-hour expiry) or creates a new row.  Marshalling cannot fail in the model,
so SaveNotes always succeeds. -/
def SaveNotes (s : AppState) (uid : Nat) (notes : List Note) (now : Nat) :
    AppState :=
  let mem := memInsert s.memCache uid notes
  match cacheFind s.db.caches uid with
  | some row =>
      let row2 := { row with notes := notes, expiryDate := now + day }
      { s with memCache := mem,
               db := { s.db with
                 caches := s.db.caches.map (fun r => if r.id == row.id then row2 else r) } }
  | none =>
      let row : CacheRow :=
        { id := s.db.nextCacheId, userId := uid, notes := notes,
          expiryDate := now + day, deletedAt := none }
      { s with memCache := mem,
               db := { s.db with
                       caches := s.db.caches ++ [row],
                       nextCacheId := s.db.nextCacheId + 1 } }

/-- models.LoadNotes: in-memory map first; on miss, the persisted cache row
for the user; a database-tier hit is copied back into the map.  The source
never reads `ExpiryDate` (LoadNotes takes no clock), so an expired persisted
row is returned like any other.  On a second miss the GORM error from First
is wrapped and returned. -/
def LoadNotes (s : AppState) (uid : Nat) :
    Except String (List Note) × AppState :=
  match memLookup s.memCache uid with
  | some notes => (.ok notes, s)
  | none =>
      match cacheFind s.db.caches uid with
      | none => (.error "error loading notes from database cache", s)
      | some row =>
          (.ok row.notes, { s with memCache := memInsert s.memCache uid row.notes })

/-- models.ClearNotesCache: resets the in-memory map, then runs
`db.Delete(&Cache{})`.  That call carries no WHERE conditions and the Cache
value has a zero primary key, so GORM v2's Block Global Delete refuses to run
it and returns gorm.ErrMissingWhereClause ("WHERE conditions required"): the
persisted cache rows are left untouched.  ClearNotesCache logs and returns
the error; every caller in notes.go discards the returned error. -/
def ClearNotesCache (s : AppState) : AppState × Option String :=
  ({ s with memCache := [] }, some "WHERE conditions required")

/-- fetchUserNotes (notes.go): `user_id = ? AND deleted_at IS NULL` on the
notes table. -/
def fetchUserNotes (db : Db) (uid : Nat) : List Note :=
  db.notes.filter (fun n => n.userId == uid && n.deletedAt.isNone)

/-- Symbolic HMAC-SHA256 JWT: claims user_id and exp plus the signing key
that produced the signature. -/
structure Token where
  userId : Nat
  exp : Nat
  key : String
deriving Repr, DecidableEq

/-- The Authorization header of a request: absent, a string that does not
parse as a JWT, or a well-formed token, optionally carrying the textual
"Bearer " scheme prefix. -/
inductive AuthHeader where
  | missing
  | malformed (raw : String)
  | token (hasBearer : Bool) (t : Token)
deriving Repr, DecidableEq

/-- Process environment: auth.go's init reads JWT_SECRET into the package
variable secretKey (used by generateToken and AuthMiddleware), while
notes.go's getUserIDFromToken reads JWT_SECRET_KEY on every call.  An unset
variable is the empty string. -/
structure Env where
  jwtSecret : String
  jwtSecretKey : String
deriving Repr, DecidableEq

/-- jwt.Parse + Valid: the signature verifies against `key` and the exp
claim is in the future (jwt/v4 verifies exp with now.Before(exp)). -/
def tokenValid (t : Token) (key : String) (now : Nat) : Bool :=
  t.key == key && now < t.exp

/-- generateToken (auth.go): claims user_id = user.ID and
exp = now + 24h, signed with secretKey = JWT_SECRET.  HMAC signing of a
well-formed claims map cannot fail, so the error path is dead. -/
def generateToken (env : Env) (u : User) (now : Nat) : Token :=
  { userId := u.id, exp := now + day, key := env.jwtSecret }

/-- getUserIDFromToken (notes.go): reads the Authorization header, strips a
"Bearer " prefix if present, and parses/validates the token against
JWT_SECRET_KEY (not JWT_SECRET).  Returns the user_id claim. -/
def getUserIDFromToken (env : Env) (hdr : AuthHeader) (now : Nat) :
    Except String Nat :=
  match hdr with
  | .missing => .error "authorization header is missing"
  | .malformed _ => .error "invalid token"
  | .token _ t =>
      if tokenValid t env.jwtSecretKey now then .ok t.userId
      else .error "invalid token"

/-- HTTP responses produced by the embedded handlers, tagged with their
payloads. -/
inductive Resp where
  | okNotes (ns : List Note)
  | okUser (u : User)
  | okToken (t : Token)
  | created (n : Note)
  | createdUser (u : User)
  | updated (n : Note)
  | noContent
  | badRequest (msg : String)
  | unauthorized (msg : String)
  | notFound (msg : String)
  | serverError (msg : String)
deriving Repr, DecidableEq

/-- The HTTP status code of a response. -/
def Resp.status : Resp → Nat
  | .okNotes _ => 200
  | .okUser _ => 200
  | .okToken _ => 200
  | .created _ => 201
  | .createdUser _ => 201
  | .updated _ => 200
  | .noContent => 204
  | .badRequest _ => 400
  | .unauthorized _ => 401
  | .notFound _ => 404
  | .serverError _ => 500

/-- Whether a response is a 401 Unauthorized. -/
def Resp.isUnauthorized : Resp → Bool
  | .unauthorized _ => true
  | _ => false

/-- Whether a response is a 404 Not Found. -/
def Resp.isNotFound : Resp → Bool
  | .notFound _ => true
  | _ => false

/-- `database.First(&user, userID)` on the users table: primary-key lookup
with GORM's automatic soft-delete filter for User. -/
def findActiveUserById (users : List User) (uid : Nat) : Option User :=
  users.find? (fun u => u.id == uid && u.deletedAt.isNone)

/-- AuthMiddleware (auth.go): parses the raw Authorization header with
jwt.Parse against secretKey = JWT_SECRET — it does NOT strip a "Bearer "
prefix, so a scheme-prefixed header fails to parse — then re-fetches the
user by id and stores it in the request context.  Wired only to GET /me in
cmd/main.go. -/
def AuthMiddleware (env : Env) (db : Db) (hdr : AuthHeader) (now : Nat) :
    Except Resp User :=
  match hdr with
  | .missing => .error (.unauthorized "Authorization token required")
  | .malformed _ => .error (.unauthorized "Invalid token")
  | .token hasBearer t =>
      if hasBearer then .error (.unauthorized "Invalid token")
      else if tokenValid t env.jwtSecret now then
        match findActiveUserById db.users t.userId with
        | some u => .ok u
        | none => .error (.unauthorized "User not found")
      else .error (.unauthorized "Invalid token")

/-- GET /me: AuthMiddleware then GetMe, which returns the context user. -/
def getMe (env : Env) (db : Db) (hdr : AuthHeader) (now : Nat) : Resp :=
  match AuthMiddleware env db hdr now with
  | .error r => r
  | .ok u => .okUser u

/-- Stand-in for go-playground/validator's `email` pattern, computed on the
character list: exactly one @, a non-empty local part, and a domain that
contains a dot neither at its start nor at its end.  Every theorem in this
file only evaluates it on addresses it accepts or on strings the `required`
rule has already rejected, so the exact pattern never decides a claim. -/
def validEmailShape (s : String) : Bool :=
  let cs := s.data
  let l := cs.takeWhile (fun c => c != '@')
  let d := (cs.dropWhile (fun c => c != '@')).drop 1
  cs.count '@' == 1 && !l.isEmpty && d.contains '.' &&
    d.head? != some '.' && d.getLast? != some '.'

/-- validator.Struct on models.User: username `required,min=3,max=32`,
password `required,min=8`, first/last name and email `required`, email
`email`.  The omitted informational fields are all `omitempty`. -/
def validateUserStruct (u : User) : Bool :=
  3 ≤ u.username.length && u.username.length ≤ 32 &&
  8 ≤ u.password.length &&
  u.firstName ≠ "" && u.lastName ≠ "" &&
  u.email ≠ "" && validEmailShape u.email

/-- validator.Struct on models.Note: UserID `required` (non-zero), Title and
Body `required` (non-empty), DeletedAt `omitempty`; the untagged `User`
association struct is a nested struct, which validator.v10 descends into by
default, applying the full User rules to it. -/
def validateNoteStruct (r : NoteReq) : Bool :=
  r.userId != 0 && r.title ≠ "" && r.body ≠ "" && validateUserStruct r.user

/-- bcrypt.GenerateFromPassword, modelled as an injective symbolic one-way
tag (salting and cost are outside the spec's scope). -/
def hashPassword (p : String) : String := "bcrypt$" ++ p

/-- bcrypt.CompareHashAndPassword: succeeds exactly when the hash was
produced from the password. -/
def bcryptCompare (h p : String) : Bool := h == hashPassword p

/-- getNotes (notes.go): token → cache read → if the cache read errors or
returns an empty list, fall back to fetchUserNotes and repopulate the cache
via SaveNotes.  The repository read is total in the model, so the
"Database error" 500 branch is dead. -/
def getNotes (env : Env) (s : AppState) (hdr : AuthHeader) (now : Nat) :
    Resp × AppState :=
  match getUserIDFromToken env hdr now with
  | .error e => (.unauthorized e, s)
  | .ok uid =>
      match LoadNotes s uid with
      | (.ok notes, s1) =>
          if notes.isEmpty then
            (.okNotes (fetchUserNotes s1.db uid),
             SaveNotes s1 uid (fetchUserNotes s1.db uid) now)
          else (.okNotes notes, s1)
      | (.error _, s1) =>
          (.okNotes (fetchUserNotes s1.db uid),
           SaveNotes s1 uid (fetchUserNotes s1.db uid) now)

/-- createNote (notes.go): parse body → validator.Struct → token →
note.UserID = token uid → database.Create (ID auto-assigned when the body's
is zero, CreatedAt/UpdatedAt stamped by GORM when zero, an explicit
conflicting primary key fails the insert) → ClearNotesCache (error
discarded) → 201 with the stored note. -/
def createNote (env : Env) (s : AppState) (body : Option NoteReq)
    (hdr : AuthHeader) (now : Nat) : Resp × AppState :=
  match body with
  | none => (.badRequest "Invalid input", s)
  | some req =>
      if validateNoteStruct req then
        match getUserIDFromToken env hdr now with
        | .error e => (.unauthorized e, s)
        | .ok uid =>
            if req.id != 0 && s.db.notes.any (fun n => n.id == req.id) then
              (.serverError "Unable to create note", s)
            else
              let nid := if req.id == 0 then s.db.nextNoteId else req.id
              let n : Note :=
                { id := nid, userId := uid, title := req.title, body := req.body,
                  createdAt := if req.createdAt == 0 then now else req.createdAt,
                  updatedAt := now, deletedAt := req.deletedAt }
              let db2 : Db :=
                { s.db with
                  notes := s.db.notes ++ [n],
                  nextNoteId := if req.id == 0 then s.db.nextNoteId + 1
                                else max s.db.nextNoteId (req.id + 1) }
              ((.created n), (ClearNotesCache { s with db := db2 }).1)
      else (.badRequest "Validation failed", s)

/-- updateNote (notes.go): parse :id → parse body → validator.Struct →
token → existence check `id = ? AND user_id = ?` (no deleted_at filter: Note
has no automatic soft delete) → note.ID/UserID forced from URL and token →
database.Save.  Save on a non-zero primary key issues a full update
selecting all columns ("Save will save all fields"), so title, body,
created_at and deleted_at are written from the request struct as-is while
UpdatedAt is refreshed by AutoUpdateTime; the WHERE is the primary key. -/
def updateNote (env : Env) (s : AppState) (idParam : Option Nat)
    (body : Option NoteReq) (hdr : AuthHeader) (now : Nat) : Resp × AppState :=
  match idParam with
  | none => (.badRequest "Invalid note ID", s)
  | some nid =>
      match body with
      | none => (.badRequest "Invalid input", s)
      | some req =>
          if validateNoteStruct req then
            match getUserIDFromToken env hdr now with
            | .error e => (.unauthorized e, s)
            | .ok uid =>
                match s.db.notes.find? (fun n => n.id == nid && n.userId == uid) with
                | none => (.notFound "Note not found", s)
                | some _ =>
                    let n : Note :=
                      { id := nid, userId := uid, title := req.title,
                        body := req.body, createdAt := req.createdAt,
                        updatedAt := now, deletedAt := req.deletedAt }
                    let db2 : Db :=
                      { s.db with
                        notes := s.db.notes.map (fun m => if m.id == nid then n else m) }
                    ((.updated n), (ClearNotesCache { s with db := db2 }).1)
          else (.badRequest "Validation failed", s)

/-- deleteNote (notes.go): parse :id → token → existence check
`id = ? AND user_id = ?` (again no deleted_at filter) → set DeletedAt to now
on the fetched row and database.Save it (full-row update, UpdatedAt
refreshed) → ClearNotesCache (error discarded) → 204. -/
def deleteNote (env : Env) (s : AppState) (idParam : Option Nat)
    (hdr : AuthHeader) (now : Nat) : Resp × AppState :=
  match idParam with
  | none => (.badRequest "Invalid note ID", s)
  | some nid =>
      match getUserIDFromToken env hdr now with
      | .error e => (.unauthorized e, s)
      | .ok uid =>
          match s.db.notes.find? (fun n => n.id == nid && n.userId == uid) with
          | none => (.notFound "Note not found", s)
          | some ex =>
              let n : Note := { ex with deletedAt := some now, updatedAt := now }
              let db2 : Db :=
                { s.db with
                  notes := s.db.notes.map (fun m => if m.id == nid then n else m) }
              (.noContent, (ClearNotesCache { s with db := db2 }).1)

/-- Register (auth.go): parse body → models.ValidateUser → username
pre-check with `Where("username = ?").First` (soft-delete filtered) → hash
password → database.Create.  The users table has unique constraints on both
username and email (which see soft-deleted rows too); a constraint violation
surfaces as the 500 "Unable to register user".  The created user, password
hash included, is echoed back with 201. -/
def Register (s : AppState) (body : Option User) (now : Nat) :
    Resp × AppState :=
  match body with
  | none => (.badRequest "Invalid input", s)
  | some u =>
      if validateUserStruct u then
        if (s.db.users.find? (fun v => v.username == u.username && v.deletedAt.isNone)).isSome then
          (.badRequest "Username already exists", s)
        else if s.db.users.any (fun v => v.username == u.username || v.email == u.email) then
          (.serverError "Unable to register user", s)
        else if u.id != 0 && s.db.users.any (fun v => v.id == u.id) then
          (.serverError "Unable to register user", s)
        else
          let nid := if u.id == 0 then s.db.nextUserId else u.id
          let nu : User :=
            { u with
              id := nid, password := hashPassword u.password,
              createdAt := now, updatedAt := now }
          ((.createdUser nu),
           { s with db := { s.db with
                            users := s.db.users ++ [nu],
                            nextUserId := if u.id == 0 then s.db.nextUserId + 1
                                          else max s.db.nextUserId (u.id + 1) } })
      else (.badRequest "Validation failed", s)

/-- Login (auth.go): parse body → look the user up by username (soft-delete
filtered) → bcrypt comparison → generateToken.  Both failure modes answer
401 with the same JSON body. -/
def Login (env : Env) (db : Db) (body : Option (String × String)) (now : Nat) :
    Resp :=
  match body with
  | none => .badRequest "Invalid input"
  | some (uname, pw) =>
      match db.users.find? (fun v => v.username == uname && v.deletedAt.isNone) with
      | none => .unauthorized "Invalid username or password"
      | some u =>
          if bcryptCompare u.password pw then .okToken (generateToken env u now)
          else .unauthorized "Invalid username or password"

/-- The cache read outcomes that send getNotes to the repository: an error
from LoadNotes or an empty cached list. -/
def cacheMissOrEmpty : Except String (List Note) → Bool
  | .ok ns => ns.isEmpty
  | .error _ => true

/- Concrete data used by the theorems below. -/

/-- A registration-valid user value, as a client would send it (raw
password, id unset). -/
def userV : User :=
  { id := 0, username := "alice", password := "password123", firstName := "A",
    lastName := "L", email := "a@x.com", createdAt := 0, updatedAt := 0,
    deletedAt := none }

/-- The same account as stored after registration: id 1, password hashed. -/
def alice : User := { userV with id := 1, password := hashPassword "password123" }

/-- An environment in which both JWT variables carry the same key, isolating
non-key behaviour. -/
def env0 : Env := { jwtSecret := "k", jwtSecretKey := "k" }

/-- An environment as produced by a .env that sets JWT_SECRET but not
JWT_SECRET_KEY. -/
def envMis : Env := { jwtSecret := "signing-key", jwtSecretKey := "" }

/-- A long-lived token for user 1 under key "k". -/
def tok1 : Token := { userId := 1, exp := 1000000, key := "k" }

/-- tok1 presented with the usual "Bearer " scheme prefix. -/
def hdr1 : AuthHeader := .token true tok1

/-- A correctly signed, unexpired token for a user id (5) that exists in no
store below. -/
def tokGhost : Token := { userId := 5, exp := 100, key := "k" }

/-- An active note owned by user 1. -/
def n1 : Note :=
  { id := 1, userId := 1, title := "first", body := "b1", createdAt := 10,
    updatedAt := 10, deletedAt := none }

/-- The note created by req2 in the C1 pipeline at time 30. -/
def n2 : Note :=
  { id := 2, userId := 1, title := "second", body := "b2", createdAt := 30,
    updatedAt := 30, deletedAt := none }

/-- Initial store: alice and her single active note, cold caches. -/
def s0 : AppState :=
  { db := { users := [alice], notes := [n1], caches := [], nextUserId := 2,
            nextNoteId := 2, nextCacheId := 1 },
    memCache := [] }

/-- An empty store. -/
def sEmpty : AppState :=
  { db := { users := [], notes := [], caches := [], nextUserId := 1,
            nextNoteId := 1, nextCacheId := 1 },
    memCache := [] }

/-- A note request that passes validator.Struct (non-zero user_id, non-empty
title/body, fully populated nested User). -/
def req2 : NoteReq :=
  { id := 0, userId := 1, user := userV, title := "second", body := "b2",
    createdAt := 0, deletedAt := none }

/-- A second validator-passing request, used against note 1. -/
def req3 : NoteReq :=
  { id := 0, userId := 1, user := userV, title := "T2", body := "B2",
    createdAt := 0, deletedAt := none }

/-- The zero value of models.Note's User association, as BodyParser leaves
it when the JSON body does not mention "user". -/
def zeroUser : User :=
  { id := 0, username := "", password := "", firstName := "", lastName := "",
    email := "", createdAt := 0, updatedAt := 0, deletedAt := none }

/-- The request body POST /notes sends in the spec's own scenario:
title "T", body "B", nothing else. -/
def reqTB : NoteReq :=
  { id := 0, userId := 0, user := zeroUser, title := "T", body := "B",
    createdAt := 0, deletedAt := none }

/-- A note of user 1 that was soft-deleted at time 3. -/
def mDel : Note :=
  { id := 1, userId := 1, title := "old", body := "ob", createdAt := 7,
    updatedAt := 5, deletedAt := some 3 }

/-- Store whose only note is the soft-deleted mDel, owned by alice. -/
def sDel : AppState :=
  { db := { users := [alice], notes := [mDel], caches := [], nextUserId := 2,
            nextNoteId := 2, nextCacheId := 1 },
    memCache := [] }

/-- The row updateNote writes when applying req3 to note 1 for user 1 at
time 50. -/
def c5note : Note :=
  { id := 1, userId := 1, title := "T2", body := "B2", createdAt := 0,
    updatedAt := 50, deletedAt := none }

/-- A stale note snapshot living in the persisted cache of user 7. -/
def nStale : Note :=
  { id := 9, userId := 7, title := "s", body := "sb", createdAt := 1,
    updatedAt := 1, deletedAt := none }

/-- A persisted cache row for user 7 whose expiry (100) lies in the past of
the read below (200). -/
def rowExp : CacheRow :=
  { id := 1, userId := 7, notes := [nStale], expiryDate := 100,
    deletedAt := none }

/-- Store with an expired persisted cache row and an empty in-memory map. -/
def sExp : AppState :=
  { db := { users := [], notes := [], caches := [rowExp], nextUserId := 1,
            nextNoteId := 1, nextCacheId := 2 },
    memCache := [] }

/-- A registration candidate with a fresh username but alice's email. -/
def bobDup : User :=
  { id := 0, username := "bob", password := "password123", firstName := "B",
    lastName := "N", email := "a@x.com", createdAt := 0, updatedAt := 0,
    deletedAt := none }

/-- State after: GET /notes (warms both cache tiers), then POST /notes
creating n2 (which runs ClearNotesCache), starting from s0. -/
def c1afterCreate : AppState :=
  (createNote env0 (getNotes env0 s0 hdr1 20).2 (some req2) hdr1 30).2

/-- State after: GET /notes (warms both cache tiers), then DELETE /notes/1
(which runs ClearNotesCache), starting from s0. -/
def c10afterDelete : AppState :=
  (deleteNote env0 (getNotes env0 s0 hdr1 20).2 (some 1) hdr1 30).2

/- Helper lemmas shared by the claim theorems. -/

/-- A well-formed header token that validates against JWT_SECRET_KEY makes
getUserIDFromToken return its user_id claim, Bearer prefix or not. -/
theorem getUserIDFromToken_token (env : Env) (hb : Bool) (t : Token) (now : Nat)
    (h : tokenValid t env.jwtSecretKey now = true) :
    getUserIDFromToken env (.token hb t) now = .ok t.userId := by
  simp [getUserIDFromToken, h]

/-- LoadNotes never writes to the database: only the in-memory map can
change. -/
theorem LoadNotes_db (s : AppState) (uid : Nat) :
    (LoadNotes s uid).2.db = s.db := by
  unfold LoadNotes
  split
  · rfl
  · split
    · rfl
    · rfl

/-- Reading back the binding just written into the Go map. -/
theorem memLookup_memInsert_self (m : List (Nat × List Note)) (k : Nat)
    (v : List Note) :
    memLookup (memInsert m k v) k = some v := by
  unfold memLookup memInsert
  rw [List.find?_cons_of_pos] <;> simp

/-- SaveNotes leaves the written notes readable in the in-memory tier. -/
theorem SaveNotes_memLookup (s : AppState) (uid : Nat) (ns : List Note)
    (now : Nat) :
    memLookup (SaveNotes s uid ns now).memCache uid = some ns := by
  unfold SaveNotes
  split <;> simp [memLookup_memInsert_self]

/-- Claim C1, evaluated at its failing input: starting from s0 (alice, one
note, cold caches), a list request warms both cache tiers, a successful
create of n2 then runs ClearNotesCache, yet the next list request for the
same user returns the pre-create snapshot [n1] — not the repository content
[n1, n2] — because ClearNotesCache's unconditioned GORM delete is refused
with ErrMissingWhereClause (ignored by the caller) and the persisted row
survives the invalidation.  A stale note list IS returned after a mutation,
refuting the claim. -/
theorem C1_stale_read_after_create :
    (createNote env0 (getNotes env0 s0 hdr1 20).2 (some req2) hdr1 30).1
      = .created n2
    ∧ fetchUserNotes c1afterCreate.db 1 = [n1, n2]
    ∧ (getNotes env0 c1afterCreate hdr1 40).1 = .okNotes [n1]
    ∧ (getNotes env0 c1afterCreate hdr1 40).1
      ≠ .okNotes (fetchUserNotes c1afterCreate.db 1) := by
  decide

/-- Claim C2, evaluated at its failing input: with JWT_SECRET set to
"signing-key" and JWT_SECRET_KEY unset, generateToken embeds the user id and
a 24-hour expiry as claimed, but the still-unexpired token is rejected by
getUserIDFromToken, because the issuer signs with JWT_SECRET while the
verifier checks against the distinct variable JWT_SECRET_KEY. -/
theorem C2_key_mismatch :
    (generateToken envMis alice 0).userId = alice.id
    ∧ (generateToken envMis alice 0).exp = 0 + day
    ∧ 10 < (generateToken envMis alice 0).exp
    ∧ envMis.jwtSecret ≠ envMis.jwtSecretKey
    ∧ getUserIDFromToken envMis (.token true (generateToken envMis alice 0)) 10
      = .error "invalid token" :=
  ⟨rfl, rfl, by decide, by decide, rfl⟩

/-- Claim C3 counterexample: a correctly signed, unexpired token for user
id 5 against an empty store (no account 5 exists at all).  The claim demands
Unauthorized; getNotes answers 200 with a list, because the note handlers
never re-fetch the user after token verification. -/
theorem C3_counterexample :
    findActiveUserById sEmpty.db.users 5 = none
    ∧ tokenValid tokGhost env0.jwtSecretKey 0 = true
    ∧ (getNotes env0 sEmpty (.token true tokGhost) 0).1 = .okNotes []
    ∧ Resp.status (getNotes env0 sEmpty (.token true tokGhost) 0).1 ≠ 401 := by
  decide

/-- Claim C4 counterexample: sDel's only note is owned by user 1 but was
soft-deleted at time 3, so no ACTIVE note with id 1 exists for user 1; the
claim therefore demands NotFound for user 1's update and delete of note 1.
Instead the existence check — which filters on id and owner only, never on
the delete timestamp — finds the row, the update answers 200 and the delete
204. -/
theorem C4_counterexample :
    sDel.db.notes = [mDel]
    ∧ mDel.deletedAt = some 3
    ∧ (updateNote env0 sDel (some 1) (some req3) hdr1 50).1 = .updated c5note
    ∧ (updateNote env0 sDel (some 1) (some req3) hdr1 50).1.isNotFound = false
    ∧ Resp.status (updateNote env0 sDel (some 1) (some req3) hdr1 50).1 = 200
    ∧ (deleteNote env0 sDel (some 1) hdr1 50).1 = .noContent
    ∧ (deleteNote env0 sDel (some 1) hdr1 50).1.isNotFound = false := by
  decide

/-- Claim C5 counterexample: updating note 1 (created at 7, soft-deleted at
3) with a request that carries no created_at and no deleted_at succeeds, and
the stored row afterwards has createdAt 0 and deletedAt none: database.Save
writes every column from the request struct, so the created timestamp and
the delete-state are NOT preserved (the update even resurrects the deleted
note). -/
theorem C5_counterexample :
    sDel.db.notes = [mDel]
    ∧ mDel.createdAt = 7
    ∧ mDel.deletedAt = some 3
    ∧ (updateNote env0 sDel (some 1) (some req3) hdr1 50).1 = .updated c5note
    ∧ (updateNote env0 sDel (some 1) (some req3) hdr1 50).2.db.notes = [c5note]
    ∧ c5note.createdAt = 0
    ∧ c5note.deletedAt = none := by
  decide

/-- Claim C6, evaluated at its failing input: user 7's in-memory tier is
empty and the persisted row expired at time 100; read at any later time
(the claim's now = 200) the row is still served, because LoadNotes never
consults ExpiryDate — it does not even take a clock. -/
theorem C6_expired_entry_served :
    memLookup sExp.memCache 7 = none
    ∧ cacheFind sExp.db.caches 7 = some rowExp
    ∧ rowExp.expiryDate = 100
    ∧ rowExp.expiryDate < 200
    ∧ (LoadNotes sExp 7).1 = .ok [nStale] :=
  ⟨rfl, rfl, rfl, by decide, rfl⟩

/-- Claim C7, evaluated at its failing input: the spec's own scenario body
(title "T", body "B") carries an absent (zero) owner field, and creation
with a valid token fails with 400 "Validation failed" instead of 201:
models.Note tags UserID `validate:"required"` (and validator descends into
the zero-valued nested User), so an absent client-supplied owner DOES make
the request fail. -/
theorem C7_valid_body_rejected :
    reqTB.title = "T"
    ∧ reqTB.body = "B"
    ∧ reqTB.title ≠ ""
    ∧ reqTB.body ≠ ""
    ∧ validateNoteStruct reqTB = false
    ∧ (createNote env0 s0 (some reqTB) hdr1 20).1 = .badRequest "Validation failed"
    ∧ Resp.status (createNote env0 s0 (some reqTB) hdr1 20).1 = 400 := by
  decide

/-- Claim C8 counterexample: bobDup has a fresh username but alice's email.
Registration's only duplicate pre-check is on username, so the candidate
reaches database.Create, trips the email unique constraint, and the handler
answers 500 "Unable to register user" — a storage error, not the claimed
Conflict 400/409. -/
theorem C8_counterexample :
    validateUserStruct bobDup = true
    ∧ s0.db.users.any (fun v => v.email == bobDup.email) = true
    ∧ s0.db.users.any (fun v => v.username == bobDup.username) = false
    ∧ (Register s0 (some bobDup) 100).1 = .serverError "Unable to register user"
    ∧ Resp.status (Register s0 (some bobDup) 100).1 = 500 := by
  decide

/-- Claim C10 counterexample: after warming both cache tiers and then
deleting note 1 (whose ClearNotesCache empties only the in-memory map),
user 1's set of active notes is empty, yet the next GET /notes serves the
stale non-empty snapshot [n1] from the persisted tier — the cache result is
NOT treated as a miss, the repository is not consulted, and the persisted
cache is not re-written. -/
theorem C10_counterexample :
    fetchUserNotes c10afterDelete.db 1 = []
    ∧ (getNotes env0 c10afterDelete hdr1 40).1 = .okNotes [n1]
    ∧ (getNotes env0 c10afterDelete hdr1 40).1 ≠ .okNotes []
    ∧ (getNotes env0 c10afterDelete hdr1 40).2.db.caches = c10afterDelete.db.caches := by
  decide

/-- Claim C3 (amended): the note operations (list/create/update/delete)
authenticate with getUserIDFromToken alone — signature and expiry of the
bearer token against JWT_SECRET_KEY — and never re-fetch the user, so a
request with a syntactically valid, correctly signed, unexpired token whose
account no longer exists is NOT answered with Unauthorized; the
re-fetch-the-User-and-401 behaviour exists only in AuthMiddleware, which
cmd/main.go wires solely to GET /me (where a missing or soft-deleted account
does produce 401 "User not found"). -/
theorem C3_amended (env : Env) (s : AppState) (hb : Bool) (t : Token)
    (now : Nat) (req : NoteReq) (nid : Nat)
    (htok : tokenValid t env.jwtSecretKey now = true)
    (hval : validateNoteStruct req = true) :
    (getNotes env s (.token hb t) now).1.isUnauthorized = false
    ∧ (createNote env s (some req) (.token hb t) now).1.isUnauthorized = false
    ∧ (updateNote env s (some nid) (some req) (.token hb t) now).1.isUnauthorized = false
    ∧ (deleteNote env s (some nid) (.token hb t) now).1.isUnauthorized = false
    ∧ (tokenValid t env.jwtSecret now = true → hb = false →
        findActiveUserById s.db.users t.userId = none →
        AuthMiddleware env s.db (.token hb t) now
          = .error (.unauthorized "User not found")) := by
  have htk := getUserIDFromToken_token env hb t now htok
  refine ⟨?_, ?_, ?_, ?_, ?_⟩
  · simp only [getNotes, htk]
    split <;> (try split) <;> rfl
  · simp only [createNote, htk, hval, if_true]
    split <;> rfl
  · simp only [updateNote, htk, hval, if_true]
    split <;> rfl
  · simp only [deleteNote, htk]
    split <;> rfl
  · intro h1 h2 h3
    subst h2
    simp [AuthMiddleware, h1, h3]

/-- Witness for C3_amended: a valid token for the absent user 5 against the
empty store is not answered 401 by getNotes, while AuthMiddleware answers
exactly 401 "User not found". -/
theorem C3_amended_witness :
    (getNotes env0 sEmpty (.token true tokGhost) 0).1.isUnauthorized = false
    ∧ AuthMiddleware env0 sEmpty.db (.token false tokGhost) 0
      = .error (.unauthorized "User not found") :=
  ⟨(C3_amended env0 sEmpty true tokGhost 0 req2 1 (by decide) (by decide)).1,
   (C3_amended env0 sEmpty false tokGhost 0 req2 1 (by decide) (by decide)).2.2.2.2
     (by decide) rfl rfl⟩

/-- Claim C4 (amended): the pre-update/pre-delete check answers NotFound if
and only if no note — active or soft-deleted — with the given id exists for
the requesting owner.  Cross-user access and absent ids therefore still
collapse to the same NotFound, but an update or delete of an already
soft-deleted owned note is NOT refused, because the check filters on id and
owner only and never on the delete timestamp. -/
theorem C4_amended (env : Env) (s : AppState) (hb : Bool) (t : Token)
    (now : Nat) (req : NoteReq) (nid : Nat)
    (htok : tokenValid t env.jwtSecretKey now = true)
    (hval : validateNoteStruct req = true) :
    ((updateNote env s (some nid) (some req) (.token hb t) now).1.isNotFound = true
      ↔ s.db.notes.find? (fun n => n.id == nid && n.userId == t.userId) = none)
    ∧ ((deleteNote env s (some nid) (.token hb t) now).1.isNotFound = true
      ↔ s.db.notes.find? (fun n => n.id == nid && n.userId == t.userId) = none) := by
  have htk := getUserIDFromToken_token env hb t now htok
  constructor
  · simp only [updateNote, htk, hval, if_true]
    cases h : s.db.notes.find? (fun n => n.id == nid && n.userId == t.userId) <;>
      simp [h, Resp.isNotFound]
  · simp only [deleteNote, htk]
    cases h : s.db.notes.find? (fun n => n.id == nid && n.userId == t.userId) <;>
      simp [h, Resp.isNotFound]

/-- Witness for C4_amended: against the empty store, update and delete of
note 1 with a valid token both answer NotFound. -/
theorem C4_amended_witness :
    (updateNote env0 sEmpty (some 1) (some req2) (.token true tok1) 0).1.isNotFound = true
    ∧ (deleteNote env0 sEmpty (some 1) (.token true tok1) 0).1.isNotFound = true := by
  have h := C4_amended env0 sEmpty true tok1 0 req2 1 (by decide) (by decide)
  exact ⟨h.1.mpr rfl, h.2.mpr rfl⟩

/-- Claim C5 (amended): on every successful update the note's id and owner
are preserved (they are forced from the URL and the token), title and body
are taken from the request, and the updated timestamp is refreshed — but
the created timestamp and the delete-state are NOT preserved: database.Save
writes every column from the request struct, so they become whatever the
request carried (the zero time and nil for the usual body). -/
theorem C5_amended (env : Env) (s : AppState) (hb : Bool) (t : Token)
    (now : Nat) (req : NoteReq) (nid : Nat) (n : Note)
    (htok : tokenValid t env.jwtSecretKey now = true)
    (hval : validateNoteStruct req = true)
    (hsucc : (updateNote env s (some nid) (some req) (.token hb t) now).1
      = .updated n) :
    n.id = nid ∧ n.userId = t.userId ∧ n.title = req.title ∧ n.body = req.body
    ∧ n.updatedAt = now ∧ n.createdAt = req.createdAt
    ∧ n.deletedAt = req.deletedAt := by
  have htk := getUserIDFromToken_token env hb t now htok
  simp only [updateNote, htk, hval, if_true] at hsucc
  cases h : s.db.notes.find? (fun m => m.id == nid && m.userId == t.userId) with
  | none =>
      rw [h] at hsucc
      simp at hsucc
  | some m =>
      rw [h] at hsucc
      have h3 : Resp.updated
          { id := nid, userId := t.userId, title := req.title, body := req.body,
            createdAt := req.createdAt, updatedAt := now,
            deletedAt := req.deletedAt }
          = Resp.updated n := hsucc
      injection h3 with h4
      subst h4
      exact ⟨rfl, rfl, rfl, rfl, rfl, rfl, rfl⟩

/-- Witness for C5_amended: the successful update of sDel's note 1 by req3
at time 50 yields exactly c5note. -/
theorem C5_amended_witness :
    c5note.id = 1 ∧ c5note.userId = 1 ∧ c5note.title = req3.title
    ∧ c5note.body = req3.body ∧ c5note.updatedAt = 50
    ∧ c5note.createdAt = req3.createdAt
    ∧ c5note.deletedAt = req3.deletedAt :=
  C5_amended env0 sDel true tok1 50 req3 1 c5note (by decide) (by decide) rfl

/-- Claim C8 (amended): registration of a validator-passing candidate
answers Conflict (400 "Username already exists") exactly when the username
pre-check finds an active user with that username; a duplicate email (or a
username duplicated only by a soft-deleted account) escapes the pre-check
and fails at persistence on the unique constraint with 500, a storage
error; otherwise the password is hashed and the new user persisted. -/
theorem C8_amended (s : AppState) (u : User) (now : Nat)
    (hval : validateUserStruct u = true) :
    ((s.db.users.find? (fun v => v.username == u.username && v.deletedAt.isNone)).isSome = true →
      (Register s (some u) now).1 = .badRequest "Username already exists")
    ∧ ((s.db.users.find? (fun v => v.username == u.username && v.deletedAt.isNone)).isSome = false →
      s.db.users.any (fun v => v.username == u.username || v.email == u.email) = true →
      (Register s (some u) now).1 = .serverError "Unable to register user")
    ∧ ((s.db.users.find? (fun v => v.username == u.username && v.deletedAt.isNone)).isSome = false →
      s.db.users.any (fun v => v.username == u.username || v.email == u.email) = false →
      u.id = 0 →
      (Register s (some u) now).1
        = .createdUser { u with
                         id := s.db.nextUserId,
                         password := hashPassword u.password,
                         createdAt := now, updatedAt := now }
      ∧ (Register s (some u) now).2.db.users
        = s.db.users ++ [{ u with
                           id := s.db.nextUserId,
                           password := hashPassword u.password,
                           createdAt := now, updatedAt := now }]) := by
  refine ⟨?_, ?_, ?_⟩
  · intro h1
    simp [Register, hval, h1]
  · intro h1 h2
    simp [Register, hval, h1, h2]
  · intro h1 h2 h3
    constructor
    · simp [Register, hval, h1, h2, h3]
    · simp [Register, hval, h1, h2, h3]

/-- Witness for C8_amended: registering userV against the empty store
persists the hashed-password user with id 1. -/
theorem C8_amended_witness :
    (Register sEmpty (some userV) 100).1
      = .createdUser { userV with
                       id := 1, password := hashPassword "password123",
                       createdAt := 100, updatedAt := 100 }
    ∧ (Register sEmpty (some userV) 100).2.db.users
      = [{ userV with
           id := 1, password := hashPassword "password123",
           createdAt := 100, updatedAt := 100 }] := by
  have h := (C8_amended sEmpty userV 100 (by decide)).2.2 rfl rfl rfl
  exact ⟨h.1, h.2⟩

/-- Claim C9: login failure indistinguishability.  Whenever one attempt
fails because its username matches no (active) user and another fails
because the bcrypt comparison rejects the password of the user it found,
both receive the identical response: 401 with the generic body
"Invalid username or password". -/
theorem C9_login_indistinguishable (env : Env) (db : Db) (now1 now2 : Nat)
    (u1 p1 u2 p2 : String) (v : User)
    (h1 : db.users.find? (fun w => w.username == u1 && w.deletedAt.isNone) = none)
    (h2 : db.users.find? (fun w => w.username == u2 && w.deletedAt.isNone) = some v)
    (h3 : bcryptCompare v.password p2 = false) :
    Login env db (some (u1, p1)) now1 = .unauthorized "Invalid username or password"
    ∧ Login env db (some (u2, p2)) now2 = .unauthorized "Invalid username or password"
    ∧ Login env db (some (u1, p1)) now1 = Login env db (some (u2, p2)) now2 := by
  have A : Login env db (some (u1, p1)) now1
      = .unauthorized "Invalid username or password" := by
    simp [Login, h1]
  have B : Login env db (some (u2, p2)) now2
      = .unauthorized "Invalid username or password" := by
    simp [Login, h2, h3]
  exact ⟨A, B, A.trans B.symm⟩

/-- Witness for C9_login_indistinguishable: an unknown username and a wrong
password for alice produce the same 401 response. -/
theorem C9_witness :
    Login env0 s0.db (some ("ghost", "pw1")) 5
      = .unauthorized "Invalid username or password"
    ∧ Login env0 s0.db (some ("alice", "wrongpass")) 6
      = .unauthorized "Invalid username or password"
    ∧ Login env0 s0.db (some ("ghost", "pw1")) 5
      = Login env0 s0.db (some ("alice", "wrongpass")) 6 :=
  C9_login_indistinguishable env0 s0.db 5 6 "ghost" "pw1" "alice" "wrongpass"
    alice rfl rfl (by decide)

/-- Claim C10 (amended): whenever the cache read yields an error or an
empty list, getNotes falls through to the repository and re-writes the
cache, so an empty note list is never served from the cache itself; but a
user whose active set is empty is only guaranteed a repository hit when the
cache read does not return a stale non-empty snapshot (see the
counterexample). -/
theorem C10_amended (env : Env) (s : AppState) (hb : Bool) (t : Token)
    (now : Nat)
    (htok : tokenValid t env.jwtSecretKey now = true)
    (hmiss : cacheMissOrEmpty (LoadNotes s t.userId).1 = true) :
    (getNotes env s (.token hb t) now).1 = .okNotes (fetchUserNotes s.db t.userId)
    ∧ memLookup (getNotes env s (.token hb t) now).2.memCache t.userId
      = some (fetchUserNotes s.db t.userId) := by
  have htk := getUserIDFromToken_token env hb t now htok
  have hdb := LoadNotes_db s t.userId
  simp only [getNotes, htk]
  rcases hL : LoadNotes s t.userId with ⟨res, s1⟩
  rw [hL] at hmiss hdb
  simp only at hdb
  cases res with
  | ok ns =>
      simp only [cacheMissOrEmpty] at hmiss
      simp only [hmiss, if_true, hdb]
      exact ⟨trivial, SaveNotes_memLookup s1 t.userId (fetchUserNotes s.db t.userId) now⟩
  | error e =>
      simp only [hdb]
      exact ⟨trivial, SaveNotes_memLookup s1 t.userId (fetchUserNotes s.db t.userId) now⟩

/-- Witness for C10_amended: with cold caches, user 1's list request is
served from the repository and repopulates the cache. -/
theorem C10_amended_witness :
    (getNotes env0 s0 (.token true tok1) 20).1 = .okNotes (fetchUserNotes s0.db 1)
    ∧ memLookup (getNotes env0 s0 (.token true tok1) 20).2.memCache 1
      = some (fetchUserNotes s0.db 1) :=
  C10_amended env0 s0 true tok1 20 (by decide) rfl

end NotesApp
